import Mathlib

/-!
Shallow embedding of the viewport `Observer` component of the
super-bowl-guide repository, together with a model of the lodash
`_.throttle` rate limiter that the constructor wires around the
observation callback, and proofs about the embedded definitions.

Modelling conventions: intersection ratios and pixel coordinates are
rationals; element handles carry an opaque identity and an attribute
list; `undefined`/missing option values are explicit inductive
alternatives; a thrown TypeError is an `Except.error`; timestamps are
natural-number milliseconds.
-/

namespace SuperBowlGuide

/-- A DOM element handle: opaque identity plus its attributes.
`getAttribute` reads from the list; `none` models a null result. -/
structure Elem where
  id : ℕ
  attrs : List (String × String)
deriving DecidableEq, Repr

/-- `element.getAttribute(name)`. -/
def Elem.getAttribute (e : Elem) (name : String) : Option String :=
  (e.attrs.find? (fun p => p.1 == name)).map (fun p => p.2)

/-- An IntersectionObserverEntry as used by `Observer.onObserve`:
`intersection` models `entry.intersectionRatio`, `rectY` models
`entry.boundingClientRect.y`, and `inView` is the flag that
`onObserve` writes onto the entry (absent, hence false, on a fresh
entry delivered by the browser). -/
structure Entry where
  target : Elem
  intersection : ℚ
  rectY : ℚ
  inView : Bool := false
deriving DecidableEq, Repr

/-- The strict "ranks earlier" comparison used by
`_.orderBy(entries, ['intersectionRatio', e => e.boundingClientRect.y],
['desc', 'asc'])`: larger ratio first, ties by smaller bounding-rect y. -/
def entryBefore (a b : Entry) : Bool :=
  decide (b.intersection < a.intersection) ||
    (decide (a.intersection = b.intersection) && decide (a.rectY < b.rectY))

/-- Stable insertion of an entry into an already ranked list: the new
entry is placed before the first element it is not strictly ranked
after, so earlier-delivered entries win exact ties (matching the
stability of lodash orderBy). -/
def insertRanked (x : Entry) : List Entry → List Entry
  | [] => [x]
  | y :: ys => if entryBefore y x then y :: insertRanked x ys else x :: y :: ys

/-- The ranking performed by `_.orderBy` in `onObserve`: a stable sort
by `entryBefore` (ratio descending, then bounding-rect y ascending). -/
def orderEntries : List Entry → List Entry
  | [] => []
  | x :: xs => insertRanked x (orderEntries xs)

/-- The weak ranking order: `a` is ranked no later than `b` (i.e. `b`
is not strictly ranked before `a`). -/
def Ple (a b : Entry) : Prop := entryBefore b a = false

/-- The observation data of an entry, without the mutable `inView`
flag that `onObserve` writes. -/
def entryData (e : Entry) : Elem × ℚ × ℚ := (e.target, e.intersection, e.rectY)

/-- The value of `options.throttle` as passed by the caller:
`undefined`, a boolean, or a number of milliseconds. -/
inductive ThrottleOpt
  | undef
  | bool (b : Bool)
  | num (n : ℕ)
deriving DecidableEq, Repr

/-- JavaScript truthiness of a throttle option value. -/
def ThrottleOpt.truthy : ThrottleOpt → Bool
  | .undef => false
  | .bool b => b
  | .num n => n != 0

/-- `options.throttle = options.throttle === false || options.throttle ?
options.throttle : 150`. -/
def defaultThrottle (t : ThrottleOpt) : ThrottleOpt :=
  if (t == ThrottleOpt.bool false) || t.truthy then t else .num 150

/-- The value of `options.visibleThreshold` as passed by the caller. -/
inductive NumOpt
  | undef
  | num (q : ℚ)
deriving DecidableEq, Repr

/-- `options.visibleThreshold = options.visibleThreshold || 0.85`
(a falsy value, in particular a configured 0, falls back to 0.85). -/
def defaultVisibleThreshold : NumOpt → ℚ
  | .undef => 0.85
  | .num q => if q = 0 then 0.85 else q

/-- `options.attribute = options.attribute || 'data-id'`. -/
def defaultAttribute : Option String → String
  | none => "data-id"
  | some s => if s = "" then "data-id" else s

/-- `options.forceItem = options.forceItem === false || options.forceItem
? options.forceItem : false`. -/
def defaultForceItem : Option Bool → Bool
  | none => false
  | some b => b

/-- `this.options.elements`: either absent, an array-like of elements,
or a single element handle. -/
inductive RegVal
  | undef
  | arr (es : List Elem)
  | single (e : Elem)
deriving DecidableEq, Repr

/-- Caller-supplied constructor options, each field optional (`attr`
models `options.attribute`; the `root` option and the `onObserve`
callback itself are external wiring carried outside this model). -/
structure Options where
  throttle : ThrottleOpt := .undef
  attr : Option String := none
  visibleThreshold : NumOpt := .undef
  forceItem : Option Bool := none
  elements : RegVal := .undef
deriving DecidableEq, Repr

/-- The resolved configuration after the constructor applies defaults. -/
structure Config where
  throttle : ThrottleOpt
  attr : String
  visibleThreshold : ℚ
  forceItem : Bool
deriving DecidableEq, Repr

/-- Constructor defaulting of the option fields. -/
def resolveOptions (o : Options) : Config :=
  { throttle := defaultThrottle o.throttle
    attr := defaultAttribute o.attr
    visibleThreshold := defaultVisibleThreshold o.visibleThreshold
    forceItem := defaultForceItem o.forceItem }

/-- The 50 evenly spaced thresholds the constructor registers with the
IntersectionObserver: `_.map(_.range(0, 50), i => i * 2 / 100)`. -/
def observerThresholds : List ℚ :=
  (List.range 50).map (fun i => (i * 2 : ℚ) / 100)

/-- The payload of one `options.onObserve(identifier, entry, sorted)`
callback invocation: `none` models the `undefined` arguments passed
when the top entry is not in view. -/
structure ObserveResult where
  identifier : Option String
  sample : Option Entry
  ranked : List Entry
deriving DecidableEq, Repr

/-- The activity gate applied to the top-ranked entry:
`sorted[0].intersectionRatio >= this.options.visibleThreshold ||
this.options.forceItem` sets `inView`, which otherwise keeps its
previous value (false on a fresh entry). -/
def gateInView (cfg : Config) (top : Entry) : Bool :=
  (decide (cfg.visibleThreshold ≤ top.intersection) || cfg.forceItem)
    || top.inView

/-- `Observer.onObserve(entries)`: rank the batch, gate the top entry
(writing `inView` onto it), and build the callback arguments. An empty
batch returns `none`: the code would dereference `sorted[0]` of an
empty array. -/
def onObserve (cfg : Config) (entries : List Entry) : Option ObserveResult :=
  match orderEntries entries with
  | [] => none
  | top :: rest =>
    let topv : Entry := { top with inView := gateInView cfg top }
    some
      { identifier :=
          if topv.inView then topv.target.getAttribute cfg.attr else none
        sample := if topv.inView then some topv else none
        ranked := topv :: rest }

/-- A thrown JavaScript error (here only the TypeError raised when a
property of `undefined` is dereferenced). -/
inductive JSError
  | typeError
deriving DecidableEq, Repr

instance : DecidableEq (Except JSError Unit) := fun a b =>
  match a, b with
  | .ok (), .ok () => isTrue rfl
  | .error .typeError, .error .typeError => isTrue rfl
  | .ok (), .error _ => isFalse (fun h => Except.noConfusion h)
  | .error _, .ok () => isFalse (fun h => Except.noConfusion h)

/-- Host environment capabilities checked by the constructor guard
`!window || !window.IntersectionObserver`. -/
structure Env where
  hasWindow : Bool
  hasIntersectionObserver : Bool
deriving DecidableEq, Repr

/-- The tracker state: resolved configuration, whether `this.observer`
was created, the set of targets currently observed by that
IntersectionObserver, and the internal registry `this.options.elements`. -/
structure Observer where
  config : Config
  hasObserver : Bool
  observed : List Elem
  elements : RegVal
deriving DecidableEq, Repr

/-- The argument shapes `addElements` distinguishes: an array-like
collection (`_.isArrayLike`), a single element (`_.isElement`), or
anything else (silently ignored). -/
inductive AddArg
  | coll (es : List Elem)
  | elem (e : Elem)
  | other
deriving DecidableEq, Repr

/-- `elements.forEach(e => this.observer.observe(e))`: observing each
element in turn; when `this.observer` is `undefined` the first
iteration throws a TypeError (mutations made so far are kept). -/
def observeEach (o : Observer) : List Elem → Observer × Except JSError Unit
  | [] => (o, .ok ())
  | e :: es =>
    if o.hasObserver then
      observeEach { o with observed := o.observed ++ [e] } es
    else (o, .error .typeError)

/-- `Observer.addElements(elements)`. In the array-like branch with an
existing array-like registry, the code runs
`this.options.elements = _.map(this.options.elements)` (an identity
copy) and then `this.options.elements.concat(elements)` whose result
is discarded, so the stored registry is unchanged; in the
single-element branch it pushes onto the registry. The elements are
then observed, which throws when `this.observer` is absent. -/
def addElements (o : Observer) (arg : AddArg) : Observer × Except JSError Unit :=
  match arg with
  | .coll es =>
    let o1 : Observer :=
      match o.elements with
      | .arr old => { o with elements := .arr old }
      | _ => { o with elements := .arr es }
    observeEach o1 es
  | .elem e =>
    let o1 : Observer :=
      match o.elements with
      | .arr old => { o with elements := .arr (old ++ [e]) }
      | _ => { o with elements := .arr [e] }
    if o1.hasObserver then
      ({ o1 with observed := o1.observed ++ [e] }, .ok ())
    else (o1, .error .typeError)
  | .other => (o, .ok ())

/-- JavaScript truthiness of `this.options.elements` (an empty array is
truthy). -/
def regTruthy : RegVal → Bool
  | .undef => false
  | _ => true

/-- How `this.options.elements` is seen when the constructor passes it
back into `addElements`. -/
def argOfReg : RegVal → AddArg
  | .arr es => .coll es
  | .single e => .elem e
  | .undef => .other

/-- The `Observer` constructor: apply option defaults; if the
environment lacks the intersection capability, return before creating
`this.observer` (and before the trailing `addElements` call);
otherwise create the observer and register any configured elements. -/
def mkObserver (env : Env) (o : Options) : Observer :=
  let base : Observer :=
    { config := resolveOptions o
      hasObserver := false
      observed := []
      elements := o.elements }
  if env.hasWindow && env.hasIntersectionObserver then
    let withObs : Observer := { base with hasObserver := true }
    if regTruthy o.elements then (addElements withObs (argOfReg o.elements)).1
    else withObs
  else base

/-- `Observer.stop()`: `if (this.observer) this.observer.disconnect()`.
Disconnecting drops every observed target; nothing else is touched
(in particular no pending throttle timer is cancelled). -/
def stop (o : Observer) : Observer :=
  if o.hasObserver then { o with observed := [] } else o

/-- Modelled from the spec (section 6, viewport intersection source):
the external source delivers a batch of samples for currently observed
targets to the observer callback; no batch is delivered when the
observer is absent, when no sample concerns an observed target, or
when the batch is empty. The delivered batch runs `onObserve`. -/
def deliver (o : Observer) (entries : List Entry) : Option ObserveResult :=
  if o.hasObserver && !entries.isEmpty
      && entries.all (fun e => decide (e.target ∈ o.observed)) then
    onObserve o.config entries
  else none

/-- State of the lodash rate limiter produced by
`_.throttle(fn, wait)` (equivalently `_.debounce` with leading edge,
trailing edge and `maxWait = wait`): the saved most-recent arguments,
the absolute time at which the pending timer fires, the time of the
last call, and the time of the last invocation (initially 0). -/
structure ThrottleState (α : Type) where
  lastArgs : Option α
  timerId : Option ℕ
  lastCallTime : Option ℕ
  lastInvokeTime : ℕ
deriving DecidableEq, Repr

/-- The initial rate-limiter state. -/
def initThrottle {α : Type} : ThrottleState α :=
  { lastArgs := none, timerId := none, lastCallTime := none, lastInvokeTime := 0 }

/-- lodash `shouldInvoke(time)` with `maxing` and `maxWait = wait`:
first call ever, a full wait since the last call, time going backwards,
or a full wait since the last invocation. -/
def shouldInvoke {α : Type} (wait : ℕ) (s : ThrottleState α) (t : ℕ) : Bool :=
  match s.lastCallTime with
  | none => true
  | some lc => decide (lc + wait ≤ t) || decide (t < lc)
      || decide (s.lastInvokeTime + wait ≤ t)

/-- lodash `remainingWait(time)` in the maxing case: the sooner of a
full wait after the last call and a full wait after the last
invocation. -/
def remainingWait {α : Type} (wait : ℕ) (s : ThrottleState α) (t : ℕ) : ℕ :=
  match s.lastCallTime with
  | none => wait
  | some lc => min (lc + wait - t) (s.lastInvokeTime + wait - t)

/-- A call of the throttled function at time `t` with arguments `b`
(lodash `debounced()`): save the arguments and call time; if invoking
is due, invoke on the leading edge (starting the timer) or, with an
active timer, invoke immediately in the maxing branch (restarting the
timer); otherwise just make sure a timer is pending. Returns the new
state and the invoked arguments, if any. -/
def throttleCall {α : Type} (wait : ℕ) (s : ThrottleState α) (t : ℕ) (b : α) :
    ThrottleState α × Option α :=
  let isInvoking := shouldInvoke wait s t
  let s1 : ThrottleState α := { s with lastArgs := some b, lastCallTime := some t }
  if isInvoking then
    match s1.timerId with
    | none =>
      ({ s1 with lastInvokeTime := t, timerId := some (t + wait), lastArgs := none },
        some b)
    | some _ =>
      ({ s1 with timerId := some (t + wait), lastInvokeTime := t, lastArgs := none },
        some b)
  else
    match s1.timerId with
    | none => ({ s1 with timerId := some (t + wait) }, none)
    | some _ => (s1, none)

/-- The pending timer firing at its scheduled time `t` (lodash
`timerExpired`): if invoking is due, take the trailing edge (invoke
with the saved arguments, if any); otherwise re-arm the timer for the
remaining wait. -/
def timerFire {α : Type} (wait : ℕ) (s : ThrottleState α) (t : ℕ) :
    ThrottleState α × Option α :=
  if shouldInvoke wait s t then
    match s.lastArgs with
    | some b =>
      ({ s with timerId := none, lastArgs := none, lastInvokeTime := t }, some b)
    | none => ({ s with timerId := none }, none)
  else
    ({ s with timerId := some (t + remainingWait wait s t) }, none)

/-- Run the throttled callback over a timeline: `evs` are the delivery
times and batches handed to the throttled function in time order, the
pending timer interleaves at its scheduled time, and timers are
followed up to `horizon`. Returns the invocations (time, batch) of the
wrapped function. `fuel` bounds the number of processed events. -/
def runThrottle {α : Type} (wait : ℕ) :
    ℕ → ThrottleState α → List (ℕ × α) → ℕ → List (ℕ × α)
  | 0, _, _, _ => []
  | fuel + 1, s, evs, horizon =>
    match evs, s.timerId with
    | [], none => []
    | [], some tf =>
      if tf ≤ horizon then
        let r := timerFire wait s tf
        (r.2.map (fun b => (tf, b))).toList ++ runThrottle wait fuel r.1 [] horizon
      else []
    | (t, b) :: rest, none =>
      let r := throttleCall wait s t b
      (r.2.map (fun c => (t, c))).toList
        ++ runThrottle wait fuel r.1 rest horizon
    | (t, b) :: rest, some tf =>
      if tf < t then
        let r := timerFire wait s tf
        (r.2.map (fun c => (tf, c))).toList
          ++ runThrottle wait fuel r.1 ((t, b) :: rest) horizon
      else
        let r := throttleCall wait s t b
        (r.2.map (fun c => (t, c))).toList
          ++ runThrottle wait fuel r.1 rest horizon

/-- A timeline with a `stop()` at `stopTime`: `stop` only disconnects
the IntersectionObserver, so deliveries after `stopTime` cease but the
rate-limiter state (including any pending trailing timer) is left
running untouched. -/
def runWithStop {α : Type} (wait fuel : ℕ) (evs : List (ℕ × α))
    (stopTime horizon : ℕ) : List (ℕ × α) :=
  runThrottle wait fuel initThrottle (evs.filter (fun p => p.1 < stopTime)) horizon

/-- The invocations of the wrapped callback that happen strictly after
`stop()` returned. -/
def callsAfter {α : Type} (stopTime : ℕ) (calls : List (ℕ × α)) : List (ℕ × α) :=
  calls.filter (fun p => stopTime < p.1)

/-! Concrete fixtures used by the testable properties. -/

/-- Element fixtures carrying a `data-id` attribute. -/
def elemA : Elem := { id := 0, attrs := [("data-id", "a")] }

def elemB : Elem := { id := 1, attrs := [("data-id", "b")] }

def elemC : Elem := { id := 2, attrs := [("data-id", "c")] }

/-- Sample entries of the single-winner property: ratios
0.9, 0.95, 0.3 and bounding tops 10, 20, 5. -/
def sampleA : Entry := { target := elemA, intersection := 0.9, rectY := 10 }

def sampleB : Entry := { target := elemB, intersection := 0.95, rectY := 20 }

def sampleC : Entry := { target := elemC, intersection := 0.3, rectY := 5 }

/-- The three-sample batch of the single-winner property. -/
def batchP4 : List Entry := [sampleA, sampleB, sampleC]

/-- A resolved configuration with the default visible threshold 0.85,
no forcing, throttling at 150ms. -/
def cfg85 : Config :=
  { throttle := .num 150, attr := "data-id",
    visibleThreshold := 0.85, forceItem := false }

/-- The winning sample after `onObserve` marks it in view. -/
def sampleBv : Entry := { sampleB with inView := true }

/-- The expected callback payload for the single-winner batch. -/
def resP4 : ObserveResult :=
  { identifier := some "b"
    sample := some sampleBv
    ranked := [sampleBv, sampleA, sampleC] }

/-- Entries with ratios 0.10, 0.80, 0.85, 0.90 used by the threshold
and force-active properties. -/
def entry010 : Entry := { target := elemA, intersection := 0.10, rectY := 10 }

def entry080 : Entry := { target := elemA, intersection := 0.80, rectY := 10 }

def entry085 : Entry := { target := elemA, intersection := 0.85, rectY := 10 }

def entry090 : Entry := { target := elemA, intersection := 0.90, rectY := 10 }

/-- The 0.85-ratio entry after `onObserve` marks it in view. -/
def entry085v : Entry := { entry085 with inView := true }

/-- The expected callback payload for the batch `[entry085]` under the
default threshold. -/
def res085 : ObserveResult :=
  { identifier := some "a", sample := some entry085v, ranked := [entry085v] }

/-- The expected callback payload for the batch `[sampleC]` under the
default threshold: the 0.3 ratio misses the 0.85 gate. -/
def resC : ObserveResult :=
  { identifier := none, sample := none, ranked := [sampleC] }

/-- The 0.3-ratio entry after a zero-threshold gate marks it in view. -/
def sampleCv : Entry := { sampleC with inView := true }

/-- The expected callback payload for the batch `[sampleC]` under a
genuine zero threshold. -/
def resCzero : ObserveResult :=
  { identifier := some "c", sample := some sampleCv, ranked := [sampleCv] }

/-- The default configuration with forcing enabled. -/
def cfgForce : Config := { cfg85 with forceItem := true }

/-- A configuration whose visible threshold really is 0 (not obtainable
through the constructor, which defaults a configured 0 to 0.85). -/
def cfgZero : Config := { cfg85 with visibleThreshold := 0 }

/-- A capable host environment. -/
def envFull : Env := { hasWindow := true, hasIntersectionObserver := true }

/-- A host environment without the IntersectionObserver capability. -/
def envNoCap : Env := { hasWindow := true, hasIntersectionObserver := false }

/-- A capable tracker with one element registered. -/
def sysA : Observer := (addElements (mkObserver envFull {}) (AddArg.elem elemA)).1

/-- The tracker after `stop()` followed by a renewed `addElements` of
the same element. -/
def sysRestop : Observer := (addElements (stop sysA) (AddArg.elem elemA)).1

/-- The five-delivery timeline of the throttle-coalescing property:
batches at t = 0, 10, 20, 30, 140. -/
def deliveries5 : List (ℕ × List Entry) :=
  [(0, [sampleA]), (10, [sampleB]), (20, [sampleC]),
    (30, [entry080]), (140, [entry090])]

/-- The two deliveries of the stop-cancellation timeline. -/
def batchT0 : List Entry := [sampleA]

/-- The batch delivered at t = 50, saved for the trailing flush. -/
def batchT50 : List Entry := [sampleC]

/-! Ordering lemmas about the ranking comparator and the stable sort. -/

theorem entryBefore_true_iff (a b : Entry) :
    entryBefore a b = true ↔
      b.intersection < a.intersection ∨
        (a.intersection = b.intersection ∧ a.rectY < b.rectY) := by
  simp [entryBefore]

theorem entryBefore_false_iff (a b : Entry) :
    entryBefore b a = false ↔
      b.intersection ≤ a.intersection ∧
        (b.intersection = a.intersection → a.rectY ≤ b.rectY) := by
  rw [Bool.eq_false_iff, Ne, entryBefore_true_iff]
  push_neg
  constructor
  · rintro ⟨h1, h2⟩
    exact ⟨h1, fun he => h2 he⟩
  · rintro ⟨h1, h2⟩
    exact ⟨h1, fun he => h2 he⟩

theorem entryBefore_self (a : Entry) : entryBefore a a = false := by
  simp [entryBefore]

theorem entryBefore_asymm {a b : Entry} (h : entryBefore a b = true) :
    entryBefore b a = false := by
  rw [entryBefore_true_iff] at h
  rw [entryBefore_false_iff]
  rcases h with h | ⟨he, hy⟩
  · exact ⟨le_of_lt h, fun heq => absurd h (by rw [heq]; exact lt_irrefl _)⟩
  · exact ⟨le_of_eq he.symm, fun _ => le_of_lt hy⟩

theorem ple_refl (a : Entry) : Ple a a := entryBefore_self a

theorem ple_trans {a b c : Entry} (hab : Ple a b) (hbc : Ple b c) :
    Ple a c := by
  rw [Ple, entryBefore_false_iff] at hab hbc ⊢
  rcases hab with ⟨h1, h2⟩
  rcases hbc with ⟨h3, h4⟩
  refine ⟨h3.trans h1, fun he => ?_⟩
  have hba : b.intersection = a.intersection := le_antisymm h1 (he ▸ h3)
  have hcb : c.intersection = b.intersection := he.trans hba.symm
  exact (h2 hba).trans (h4 hcb)

theorem insertRanked_perm (x : Entry) (l : List Entry) :
    List.Perm (insertRanked x l) (x :: l) := by
  induction l with
  | nil => simp [insertRanked]
  | cons y ys ih =>
    by_cases h : entryBefore y x = true
    · simp only [insertRanked, h, if_true]
      exact (ih.cons y).trans (List.Perm.swap x y ys)
    · simp [insertRanked, h]

theorem orderEntries_perm (l : List Entry) :
    List.Perm (orderEntries l) l := by
  induction l with
  | nil => simp [orderEntries]
  | cons x xs ih =>
    exact (insertRanked_perm x (orderEntries xs)).trans (ih.cons x)

theorem pairwise_insertRanked {x : Entry} {l : List Entry}
    (h : l.Pairwise Ple) : (insertRanked x l).Pairwise Ple := by
  induction l with
  | nil => simp [insertRanked, Ple]
  | cons y ys ih =>
    rcases List.pairwise_cons.mp h with ⟨hy, hys⟩
    by_cases hb : entryBefore y x = true
    · simp only [insertRanked, hb, if_true]
      refine List.pairwise_cons.mpr ⟨?_, ih hys⟩
      intro z hz
      rcases List.mem_cons.mp ((insertRanked_perm x ys).mem_iff.mp hz) with rfl | hzys
      · exact entryBefore_asymm hb
      · exact hy z hzys
    · have hb' : entryBefore y x = false := Bool.eq_false_iff.mpr hb
      simp only [insertRanked, hb, if_false]
      refine List.pairwise_cons.mpr ⟨?_, h⟩
      intro z hz
      rcases List.mem_cons.mp hz with rfl | hzys
      · exact hb'
      · exact ple_trans hb' (hy z hzys)

theorem pairwise_orderEntries (l : List Entry) :
    (orderEntries l).Pairwise Ple := by
  induction l with
  | nil => simp [orderEntries]
  | cons x xs ih => exact pairwise_insertRanked ih

theorem orderEntries_head_min {l : List Entry} {top : Entry}
    {rest : List Entry} (h : orderEntries l = top :: rest) :
    ∀ e ∈ l, Ple top e := by
  intro e he
  have hmem : e ∈ orderEntries l := (orderEntries_perm l).mem_iff.mpr he
  rw [h] at hmem
  rcases List.mem_cons.mp hmem with rfl | hm
  · exact ple_refl e
  · have hp := pairwise_orderEntries l
    rw [h] at hp
    exact (List.pairwise_cons.mp hp).1 e hm

theorem orderEntries_head_mem {l : List Entry} {top : Entry}
    {rest : List Entry} (h : orderEntries l = top :: rest) : top ∈ l := by
  have hmem : top ∈ orderEntries l := by
    rw [h]; exact List.mem_cons_self _ _
  exact (orderEntries_perm l).mem_iff.mp hmem

theorem orderEntries_rest_mem {l : List Entry} {top : Entry}
    {rest : List Entry} (h : orderEntries l = top :: rest) :
    ∀ e ∈ rest, e ∈ l := by
  intro e he
  have hmem : e ∈ orderEntries l := by
    rw [h]; exact List.mem_cons_of_mem _ he
  exact (orderEntries_perm l).mem_iff.mp hmem

theorem onObserve_cons {cfg : Config} {entries : List Entry} {top : Entry}
    {rest : List Entry} (h : orderEntries entries = top :: rest) :
    onObserve cfg entries =
      some
        { identifier :=
            if gateInView cfg top then
              Elem.getAttribute top.target cfg.attr
            else none
          sample :=
            if gateInView cfg top then
              some { top with inView := gateInView cfg top }
            else none
          ranked := { top with inView := gateInView cfg top } :: rest } := by
  simp [onObserve, h]

/-! Claim theorems. -/

/-- C1: for every batch processed by `onObserve`, the reported active
sample (when one is reported) has the maximum intersection ratio among
the batch, with ties broken by the minimum bounding-box top; for the
batch with ratios [0.9, 0.95, 0.3] and tops [10, 20, 5], the winner is
the 0.95 sample and the ranked list has length 3 in order [1, 0, 2]. -/
theorem C1_ranking (cfg : Config) (entries : List Entry)
    (res : ObserveResult) (s : Entry)
    (hres : onObserve cfg entries = some res) (hs : res.sample = some s) :
    (∀ e ∈ entries, e.intersection ≤ s.intersection) ∧
    (∀ e ∈ entries, e.intersection = s.intersection → s.rectY ≤ e.rectY) ∧
    onObserve cfg85 batchP4 = some resP4 ∧
    resP4.ranked.map (fun e => e.target.id) = [1, 0, 2] ∧
    resP4.ranked.length = 3 := by
  rcases horder : orderEntries entries with _ | ⟨top, rest⟩
  · simp [onObserve, horder] at hres
  · rw [onObserve_cons horder] at hres
    replace hres := (Option.some.injEq _ _).mp hres
    subst hres
    by_cases hg : gateInView cfg top = true
    · simp only [hg, if_true] at hs
      replace hs := (Option.some.injEq _ _).mp hs
      subst hs
      have hmin := orderEntries_head_min horder
      refine ⟨?_, ?_, by with_unfolding_all decide, by with_unfolding_all decide, by with_unfolding_all decide⟩
      · intro e he
        exact ((entryBefore_false_iff top e).mp (hmin e he)).1
      · intro e he heq
        exact ((entryBefore_false_iff top e).mp (hmin e he)).2 heq
    · simp only [hg, if_false] at hs
      simp at hs

/-- Witness for C1 at the single-winner batch. -/
theorem C1_ranking_witness :
    onObserve cfg85 batchP4 = some resP4 ∧ resP4.sample = some sampleBv ∧
      ((∀ e ∈ batchP4, e.intersection ≤ sampleBv.intersection) ∧
        (∀ e ∈ batchP4, e.intersection = sampleBv.intersection →
          sampleBv.rectY ≤ e.rectY) ∧
        onObserve cfg85 batchP4 = some resP4 ∧
        resP4.ranked.map (fun e => e.target.id) = [1, 0, 2] ∧
        resP4.ranked.length = 3) :=
  ⟨by with_unfolding_all decide, by with_unfolding_all decide,
    C1_ranking cfg85 batchP4 resP4 sampleBv (by with_unfolding_all decide) (by with_unfolding_all decide)⟩

/-- C2: the top-ranked sample is marked active iff its ratio meets the
visible threshold or forceItem is set; with threshold 0.85 and no
forcing, a 0.80 top ratio yields an absent identifier while 0.85 and
0.90 yield the top identifier, and with forcing a 0.10 top ratio still
yields the top identifier. -/
theorem C2_threshold_gate (cfg : Config) (entries : List Entry)
    (res : ObserveResult) (t : Entry) (rest : List Entry)
    (hres : onObserve cfg entries = some res)
    (hranked : res.ranked = t :: rest)
    (hfresh : ∀ e ∈ entries, e.inView = false) :
    (t.inView = true ↔
      cfg.visibleThreshold ≤ t.intersection ∨ cfg.forceItem = true) ∧
    res.identifier =
      (if t.inView then Elem.getAttribute t.target cfg.attr else none) ∧
    Option.map ObserveResult.identifier (onObserve cfg85 [entry080]) =
      some none ∧
    Option.map ObserveResult.identifier (onObserve cfg85 [entry085]) =
      some (some "a") ∧
    Option.map ObserveResult.identifier (onObserve cfg85 [entry090]) =
      some (some "a") ∧
    Option.map ObserveResult.identifier (onObserve cfgForce [entry010]) =
      some (some "a") := by
  rcases horder : orderEntries entries with _ | ⟨top, rest0⟩
  · simp [onObserve, horder] at hres
  · rw [onObserve_cons horder] at hres
    replace hres := (Option.some.injEq _ _).mp hres
    subst hres
    dsimp only at hranked
    injection hranked with ht hr
    subst ht
    subst hr
    have hfr : top.inView = false := hfresh top (orderEntries_head_mem horder)
    refine ⟨?_, rfl, by with_unfolding_all decide, by with_unfolding_all decide, by with_unfolding_all decide, by with_unfolding_all decide⟩
    show gateInView cfg top = true ↔ _
    simp [gateInView, hfr]

/-- Witness for C2 at the 0.85-ratio batch. -/
theorem C2_threshold_gate_witness :
    onObserve cfg85 [entry085] = some res085 ∧
    res085.ranked = entry085v :: [] ∧
    (∀ e ∈ [entry085], e.inView = false) ∧
    ((entry085v.inView = true ↔
        cfg85.visibleThreshold ≤ entry085v.intersection ∨
          cfg85.forceItem = true) ∧
      res085.identifier =
        (if entry085v.inView then
          Elem.getAttribute entry085v.target cfg85.attr
        else none) ∧
      Option.map ObserveResult.identifier (onObserve cfg85 [entry080]) =
        some none ∧
      Option.map ObserveResult.identifier (onObserve cfg85 [entry085]) =
        some (some "a") ∧
      Option.map ObserveResult.identifier (onObserve cfg85 [entry090]) =
        some (some "a") ∧
      Option.map ObserveResult.identifier (onObserve cfgForce [entry010]) =
        some (some "a")) :=
  ⟨by with_unfolding_all decide, by with_unfolding_all decide, by with_unfolding_all decide,
    C2_threshold_gate cfg85 [entry085] res085 entry085v []
      (by with_unfolding_all decide) (by with_unfolding_all decide) (by with_unfolding_all decide)⟩

/-- C7: at most one entry of the delivered ranked list is marked
active; when the top candidate is not active both the identifier and
the sample are absent; and the full ranked list is still delivered (a
permutation of the batch, of the same length). -/
theorem C7_single_active (cfg : Config) (entries : List Entry)
    (res : ObserveResult) (hres : onObserve cfg entries = some res)
    (hfresh : ∀ e ∈ entries, e.inView = false) :
    res.ranked.countP (fun e => e.inView) ≤ 1 ∧
    (∀ t rest, res.ranked = t :: rest → t.inView = false →
      res.identifier = none ∧ res.sample = none) ∧
    List.Perm (res.ranked.map entryData) (entries.map entryData) ∧
    res.ranked.length = entries.length := by
  rcases horder : orderEntries entries with _ | ⟨top, rest0⟩
  · simp [onObserve, horder] at hres
  · rw [onObserve_cons horder] at hres
    replace hres := (Option.some.injEq _ _).mp hres
    subst hres
    have hperm : List.Perm (top :: rest0) entries := by
      rw [← horder]; exact orderEntries_perm entries
    have hrest0 : (rest0.countP fun e => e.inView) = 0 := by
      rw [List.countP_eq_zero]
      intro a ha
      simp [hfresh a (orderEntries_rest_mem horder a ha)]
    refine ⟨?_, ?_, ?_, ?_⟩
    · dsimp only
      rw [List.countP_cons, hrest0]
      split <;> omega
    · intro t rest hranked htno
      dsimp only at hranked
      injection hranked with ht hr
      subst ht
      have hgf : gateInView cfg top = false := htno
      exact ⟨by dsimp only; simp [hgf], by dsimp only; simp [hgf]⟩
    · exact hperm.map entryData
    · simpa using hperm.length_eq

/-- Witness for C7 at a batch whose top misses the threshold. -/
theorem C7_single_active_witness :
    onObserve cfg85 [sampleC] = some resC ∧
    (∀ e ∈ [sampleC], e.inView = false) ∧
    (resC.ranked.countP (fun e => e.inView) ≤ 1 ∧
      (∀ t rest, resC.ranked = t :: rest → t.inView = false →
        resC.identifier = none ∧ resC.sample = none) ∧
      List.Perm (resC.ranked.map entryData) ([sampleC].map entryData) ∧
      resC.ranked.length = [sampleC].length) :=
  ⟨by with_unfolding_all decide, by with_unfolding_all decide,
    C7_single_active cfg85 [sampleC] resC (by with_unfolding_all decide) (by with_unfolding_all decide)⟩

/-- C3 counterexample: a configured throttle of 0 does not disable
throttling; it is falsy without being identical to `false`, so the
constructor replaces it by 150 and installs the throttled wrapper. -/
theorem C3_counterexample :
    ¬ ((defaultThrottle (ThrottleOpt.num 0)).truthy = false) := by decide

/-- C3 (amended): only a configured `false` disables throttling (the
observation callback is installed unwrapped); a configured 0, like an
unset option, is defaulted to 150 ms and the throttled wrapper is
installed; any nonzero configured interval is kept. -/
theorem C3_throttle_config :
    defaultThrottle (ThrottleOpt.bool false) = ThrottleOpt.bool false ∧
    (defaultThrottle (ThrottleOpt.bool false)).truthy = false ∧
    defaultThrottle ThrottleOpt.undef = ThrottleOpt.num 150 ∧
    defaultThrottle (ThrottleOpt.num 0) = ThrottleOpt.num 150 ∧
    (defaultThrottle (ThrottleOpt.num 0)).truthy = true ∧
    ∀ n : ℕ, defaultThrottle (ThrottleOpt.num (n + 1)) =
      ThrottleOpt.num (n + 1) := by
  refine ⟨by decide, by decide, by decide, by decide, by decide, ?_⟩
  intro n
  simp [defaultThrottle, ThrottleOpt.truthy]

/-- C4: in an environment without the IntersectionObserver capability
the constructor returns an inert tracker without creating
`this.observer` and `stop()` is a safe no-op, but `addElements` with a
valid element (alone or in a non-empty collection) dereferences the
missing observer and throws a TypeError; only empty or malformed
arguments are silent no-ops. -/
theorem C4_nocap_addElements_throws :
    (mkObserver envNoCap {}).hasObserver = false ∧
    stop (mkObserver envNoCap {}) = mkObserver envNoCap {} ∧
    (addElements (mkObserver envNoCap {}) (AddArg.elem elemA)).2 =
      Except.error JSError.typeError ∧
    (addElements (mkObserver envNoCap {}) (AddArg.coll [elemA])).2 =
      Except.error JSError.typeError ∧
    (addElements (mkObserver envNoCap {}) (AddArg.coll [])).2 =
      Except.ok () ∧
    (addElements (mkObserver envNoCap {}) AddArg.other).2 =
      Except.ok () := by
  with_unfolding_all decide

/-- C5: with a 150 ms throttle, batches delivered at t = 0 and t = 50
schedule a trailing flush at t = 150; `stop()` at t = 100 only
disconnects the observer and does not cancel the pending timer, so the
flush still fires at t = 150 with the saved batch and the callback is
invoked after `stop()` returned. -/
theorem C5_pending_flush_fires_after_stop :
    callsAfter 100
        (runWithStop 150 20 [(0, batchT0), (50, batchT50)] 100 400) =
      [(150, batchT50)] ∧
    (onObserve cfg85 batchT50).isSome = true := by
  with_unfolding_all decide

/-- C6 counterexample: with a 150 ms throttle, the five batches
delivered at t = 0, 10, 20, 30, 140 do not produce exactly one
invocation of the wrapped callback: the lodash throttle also invokes
on the leading edge at t = 0. -/
theorem C6_counterexample :
    ¬ ((runThrottle 150 20 initThrottle deliveries5 400).length = 1) := by
  with_unfolding_all decide

/-- C6 (amended): with a 150 ms throttle, the five batches delivered at
t = 0, 10, 20, 30, 140 produce exactly two invocations of the wrapped
callback: a leading-edge call at t = 0 with the t = 0 batch, and a
trailing-edge call at t = 150 (at/after one full interval) with the
most recent batch, the one delivered at t = 140; the batches in
between are coalesced into the trailing call, and each invocation runs
the observation callback. -/
theorem C6_throttle_trace :
    runThrottle 150 20 initThrottle deliveries5 400 =
      [(0, [sampleA]), (150, [entry090])] ∧
    (onObserve cfg85 [entry090]).isSome = true := by
  with_unfolding_all decide

/-- Every `observe` loop succeeds when `this.observer` exists. -/
theorem observeEach_ok (es : List Elem) : ∀ o : Observer,
    o.hasObserver = true → (observeEach o es).2 = Except.ok () := by
  induction es with
  | nil => intro o h; rfl
  | cons e es ih =>
    intro o h
    simp only [observeEach, h, if_true]
    exact ih _ rfl

/-- `addElements` never throws when `this.observer` exists. -/
theorem addElements_ok (o : Observer) (arg : AddArg)
    (h : o.hasObserver = true) :
    (addElements o arg).2 = Except.ok () := by
  cases arg with
  | coll es =>
    rcases he : o.elements with _ | old | e0 <;>
      simp only [addElements, he] <;>
      exact observeEach_ok es _ h
  | elem e =>
    rcases he : o.elements with _ | old | e0 <;>
      simp [addElements, he, h]
  | other => rfl

/-- C8 counterexample: after `stop()`, a renewed `addElements`
re-subscribes the element, and a batch subsequently delivered for it
does invoke the observation callback — the tracker is not inert. -/
theorem C8_counterexample : ¬ (deliver sysRestop [sampleA] = none) := by
  with_unfolding_all decide

/-- C8 (amended): `stop()` is idempotent and does not throw, it
unsubscribes all observed elements in one call, and `addElements`
after `stop()` does not throw; however the tracker is not left inert:
an element added after `stop()` is observed again and a batch
delivered for it invokes the observation callback. -/
theorem C8_stop_idempotent_not_inert (o : Observer) (arg : AddArg)
    (h : o.hasObserver = true) :
    stop (stop o) = stop o ∧
    (stop o).observed = [] ∧
    (addElements (stop o) arg).2 = Except.ok () ∧
    sysRestop.observed = [elemA] ∧
    (deliver sysRestop [sampleA]).isSome = true := by
  have hstop : stop o = { o with observed := [] } := by simp [stop, h]
  refine ⟨?_, ?_, ?_, by with_unfolding_all decide, by with_unfolding_all decide⟩
  · rw [hstop]
    simp [stop, h]
  · rw [hstop]
  · exact addElements_ok _ arg (by rw [hstop]; exact h)

/-- Witness for C8 at the one-element capable tracker. -/
theorem C8_stop_idempotent_not_inert_witness :
    sysA.hasObserver = true ∧
    (stop (stop sysA) = stop sysA ∧
      (stop sysA).observed = [] ∧
      (addElements (stop sysA) (AddArg.elem elemB)).2 = Except.ok () ∧
      sysRestop.observed = [elemA] ∧
      (deliver sysRestop [sampleA]).isSome = true) :=
  ⟨by with_unfolding_all decide,
    C8_stop_idempotent_not_inert sysA (AddArg.elem elemB)
      (by with_unfolding_all decide)⟩

/-- C9: on a capable tracker whose registry already holds one element,
adding the same element inside a collection leaves the registry
unchanged — `Array.prototype.concat` returns a new array and the code
discards it — while adding it as a single element pushes it, giving a
duplicate; so the registry does not generally equal the old registry
followed by the new elements. -/
theorem C9_registry_concat_discarded :
    sysA.elements = RegVal.arr [elemA] ∧
    (addElements sysA (AddArg.coll [elemA])).1.elements =
      RegVal.arr [elemA] ∧
    ¬ ((addElements sysA (AddArg.coll [elemA])).1.elements =
      RegVal.arr [elemA, elemA]) ∧
    (addElements sysA (AddArg.elem elemA)).1.elements =
      RegVal.arr [elemA, elemA] := by
  with_unfolding_all decide

/-- C10: a configured visibleThreshold of 0 is replaced by the 0.85
default (so a zero threshold cannot be configured), although under a
genuine zero threshold the top sample of every batch with nonnegative
ratios would be active: the 0.3-ratio batch is active under the
zero-threshold configuration but inactive under the configuration the
constructor actually produces from a configured 0. -/
theorem C10_zero_threshold (entries : List Entry) (res : ObserveResult)
    (hnn : ∀ e ∈ entries, 0 ≤ e.intersection)
    (hres : onObserve cfgZero entries = some res) :
    res.sample.isSome = true ∧
    (resolveOptions { visibleThreshold := NumOpt.num 0 }).visibleThreshold
      = 0.85 ∧
    defaultVisibleThreshold (NumOpt.num 0) = 0.85 ∧
    Option.map (fun r : ObserveResult => r.sample.isSome)
      (onObserve cfgZero [sampleC]) = some true ∧
    Option.map (fun r : ObserveResult => r.sample.isSome)
      (onObserve (resolveOptions { visibleThreshold := NumOpt.num 0 })
        [sampleC]) = some false := by
  rcases horder : orderEntries entries with _ | ⟨top, rest0⟩
  · simp [onObserve, horder] at hres
  · rw [onObserve_cons horder] at hres
    replace hres := (Option.some.injEq _ _).mp hres
    subst hres
    have hg : gateInView cfgZero top = true := by
      have h0 := hnn top (orderEntries_head_mem horder)
      simp [gateInView, cfgZero, cfg85, h0]
    refine ⟨by dsimp only; simp [hg], by with_unfolding_all decide,
      by with_unfolding_all decide, by with_unfolding_all decide,
      by with_unfolding_all decide⟩

/-- Witness for C10 at the 0.3-ratio batch. -/
theorem C10_zero_threshold_witness :
    (∀ e ∈ [sampleC], 0 ≤ e.intersection) ∧
    onObserve cfgZero [sampleC] = some resCzero ∧
    (resCzero.sample.isSome = true ∧
      (resolveOptions
        { visibleThreshold := NumOpt.num 0 }).visibleThreshold = 0.85 ∧
      defaultVisibleThreshold (NumOpt.num 0) = 0.85 ∧
      Option.map (fun r : ObserveResult => r.sample.isSome)
        (onObserve cfgZero [sampleC]) = some true ∧
      Option.map (fun r : ObserveResult => r.sample.isSome)
        (onObserve (resolveOptions { visibleThreshold := NumOpt.num 0 })
          [sampleC]) = some false) :=
  ⟨by with_unfolding_all decide, by with_unfolding_all decide,
    C10_zero_threshold [sampleC] resCzero
      (by with_unfolding_all decide) (by with_unfolding_all decide)⟩

end SuperBowlGuide
